import Mathlib

/-!
Shallow embedding of the Ethiopia financial-inclusion data repository:
`src/data_loader.py` (loader/validator/summarizer/ID generator) and the
derived-metric computations of `dashboard/app.py`.

Tabular data (pandas DataFrames) is modelled as a declared column list plus
rows of (column, cell) pairs; a missing cell reads as `Cell.na` (NaN), while
accessing a column that is not declared models a Python `KeyError` (the
surrounding computation returns `none`).  Numeric scalars in the loader are
exact rationals; the dashboard's derived metrics operate on numpy float64
scalars, modelled by `NpVal` (finite rational, ±∞ or NaN) with IEEE-754
zero-division behaviour.  Fallible Python code (`KeyError`) is embedded in
`Option`.
-/

/-- A single table cell: NaN, a string, or a number. -/
inductive Cell where
  | na : Cell
  | str : String → Cell
  | num : ℚ → Cell
deriving DecidableEq, Repr

/-- A pandas DataFrame: declared columns plus rows of (column, cell) pairs. -/
structure DataFrame where
  cols : List String
  rows : List (List (String × Cell))
deriving DecidableEq, Repr

/-- Reading one cell of a row; a column not stored in the row reads as NaN. -/
def getCell (row : List (String × Cell)) (c : String) : Cell :=
  ((row.find? (fun p => p.1 == c)).map (fun p => p.2)).getD Cell.na

/-- `df[c]` as a series: `none` models the `KeyError` raised when the column
is not declared on the frame. -/
def colSeries (df : DataFrame) (c : String) : Option (List Cell) :=
  if c ∈ df.cols then some (df.rows.map (fun r => getCell r c)) else none

/-! ## ID generator (`generate_record_id`, src/data_loader.py lines 124-143) -/

/-- `re.match(r'([A-Z]+)_(\d+)', base_id)`: a maximal run of uppercase
letters at the start, an underscore, then a maximal run of digits; returns
the letter group and the digit group (as the parsed number).  As in the
source, trailing characters after the digits are ignored. -/
def reMatchIdParts (s : String) : Option (String × Nat) :=
  let cs := s.toList
  let letters := cs.takeWhile (fun c => decide ('A' ≤ c ∧ c ≤ 'Z'))
  let rest := cs.dropWhile (fun c => decide ('A' ≤ c ∧ c ≤ 'Z'))
  if letters = [] then none
  else
    match rest with
    | '_' :: rest2 =>
      let digits := rest2.takeWhile (fun c => decide ('0' ≤ c ∧ c ≤ '9'))
      if digits = [] then none
      else some (String.mk letters,
        digits.foldl (fun n c => 10 * n + (c.toNat - '0'.toNat)) 0)
    | _ => none

/-- `f"{num:04d}"`: decimal representation zero-padded to at least 4 digits. -/
def pad4 (n : Nat) : String :=
  String.mk (List.replicate (4 - (Nat.repr n).length) '0') ++ Nat.repr n

/-- The `while f"{prefix}_{num}" in existing_ids: num += 1` scan.  The Python
loop terminates because `existing` is finite; fuel `existing.length + 1`
is enough to reach the first free number. -/
def findFreeFrom (pre : String) (existing : List String) :
    Nat → Nat → Nat
  | 0, n => n
  | fuel + 1, n =>
    if (pre ++ "_" ++ Nat.repr n) ∈ existing then
      findFreeFrom pre existing fuel (n + 1)
    else n

/-- `generate_record_id` (src/data_loader.py lines 124-143), verbatim: if
`base_id` is unused, return it; if it matches `([A-Z]+)_(\d+)`, scan from the
parsed number testing the UNPADDED candidate `f"{prefix}_{num}"` and return
the PADDED `f"{prefix}_{num:04d}"`; otherwise scan suffixes `_1`, `_2`, …. -/
def generate_record_id (base_id : String) (existing_ids : List String) :
    String :=
  if base_id ∈ existing_ids then
    match reMatchIdParts base_id with
    | some (pre, num) =>
      let n := findFreeFrom pre existing_ids (existing_ids.length + 1) num
      pre ++ "_" ++ pad4 n
    | none =>
      let i := findFreeFrom base_id existing_ids (existing_ids.length + 1) 1
      base_id ++ "_" ++ Nat.repr i
  else base_id

example : reMatchIdParts "REC_0001" = some ("REC", 1) := by decide
example : generate_record_id "REC_0001" ["REC_0001", "REC_0002"] = "REC_0001" := by decide
example : generate_record_id "FOO" ["FOO"] = "FOO_1" := by decide
example : generate_record_id "X" [] = "X" := by decide

/-! ## Validator (`validate_data`, src/data_loader.py lines 60-92)

The Python method builds a dict `validation_results` with optional keys
`missing_columns` and `invalid_record_types` and then a `summary` value
whose `data_quality` field reads `len(validation_results)` BEFORE `summary`
itself is inserted (the right-hand side of the assignment is evaluated
first).  The report is modelled as the association list of dict entries in
insertion order. -/

/-- A value stored in the validation report dict. -/
inductive RVal where
  | strs : List String → RVal
  | cells : List Cell → RVal
  | summary : Nat → List Cell → String → RVal
  | msg : String → RVal
deriving DecidableEq, Repr

/-- `pandas.unique`: distinct values in order of first appearance. -/
def uniqueFirstSeen (l : List Cell) : List Cell :=
  l.foldl (fun acc x => if x ∈ acc then acc else acc ++ [x]) []

/-- The required-column list of `validate_data`. -/
def requiredCols : List String :=
  ["record_id", "record_type", "category", "pillar",
   "indicator", "indicator_code", "observation_date"]

/-- `validate_data` (src/data_loader.py lines 60-92).  `none` arguments model
unloaded tables (`self.unified_data is None` / `self.reference_codes is
None`); the outer `Option` on the result models the `KeyError` raised when
`record_type`, `field` or `code` is not a column of the respective frame. -/
def validate_data (unified refcodes : Option DataFrame) :
    Option (List (String × RVal)) :=
  match unified, refcodes with
  | some u, some r => do
    let missing_cols := requiredCols.filter (fun c => decide (c ∉ u.cols))
    let _ ← colSeries r "field"
    let _ ← colSeries r "code"
    let valid_record_types :=
      (r.rows.filter
        (fun row => decide (getCell row "field" = Cell.str "record_type"))).map
        (fun row => getCell row "code")
    let rtVals ← colSeries u "record_type"
    let invalid := rtVals.filter (fun c => decide (c ∉ valid_record_types))
    let base : List (String × RVal) :=
      (if missing_cols ≠ [] then [("missing_columns", RVal.strs missing_cols)]
       else [])
      ++ (if invalid.length > 0 then
            [("invalid_record_types", RVal.cells (uniqueFirstSeen invalid))]
          else [])
    some (base ++
      [("summary",
        RVal.summary u.rows.length valid_record_types
          (if base.length = 1 then "PASS" else "NEEDS REVIEW"))])
  | _, _ => some [("error", RVal.msg "Data not loaded")]

/-! ## Summarizer (`get_data_summary`, src/data_loader.py lines 94-122) -/

/-- One step of the value-counting pass: skip NaN, bump the count of an
already-seen value, or append a new value with count 1. -/
def fscStep (acc : List (Cell × Nat)) (x : Cell) : List (Cell × Nat) :=
  if x = Cell.na then acc
  else if x ∈ acc.map Prod.fst then
    acc.map (fun p => if p.1 = x then (p.1, p.2 + 1) else p)
  else acc ++ [(x, 1)]

/-- Counts of the non-NaN values of a series, in first-seen order
(`value_counts` drops NaN). -/
def firstSeenCounts (l : List Cell) : List (Cell × Nat) :=
  l.foldl fscStep []

/-- Invariant of the counting pass: relative to the cells already
processed, the accumulator holds exactly the non-NaN values seen, each with
its running count, one entry per value. -/
def FscInv (pre : List Cell) (acc : List (Cell × Nat)) : Prop :=
  (∀ p ∈ acc, p.1 ≠ Cell.na ∧ p.2 = pre.count p.1) ∧
  (∀ v ∈ pre, v ≠ Cell.na → v ∈ acc.map Prod.fst) ∧
  (acc.map Prod.fst).Nodup

/-- Stable insertion of one (value, count) pair into a list sorted by
descending count: the new pair goes after existing pairs of ≥ count. -/
def insertDescBy : Cell × Nat → List (Cell × Nat) → List (Cell × Nat)
  | x, [] => [x]
  | x, y :: ys => if y.2 < x.2 then x :: y :: ys else y :: insertDescBy x ys

/-- `Series.value_counts()`: frequency table of non-NaN values, sorted by
descending count, ties kept in first-seen order (stable sort). -/
def value_counts (l : List Cell) : List (Cell × Nat) :=
  (firstSeenCounts l).foldr insertDescBy []

/-- `Series.round(1)`-style rounding of a rational to one decimal place,
half to even as numpy does. -/
def round1 (q : ℚ) : ℚ :=
  let x := q * 10
  let n : ℤ := Int.ediv x.num x.den
  let f : ℚ := x - n
  (if f < 1/2 then n
   else if 1/2 < f then n + 1
   else if 2 ∣ n then n else n + 1 : ℤ) / 10

/-- The summary dict: `{}` when the unified table is not loaded, otherwise
four small DataFrames keyed `record_types`, `pillars`, `sources`,
`confidence` (only the first carries a `percentage` column). -/
inductive SummaryOut where
  | empty : SummaryOut
  | tables : DataFrame → DataFrame → DataFrame → DataFrame → SummaryOut
deriving DecidableEq, Repr

/-- The frame `value_counts().reset_index()` renamed to `[name, 'count']`. -/
def countFrame (name : String) (l : List Cell) : DataFrame :=
  ⟨[name, "count"],
   (value_counts l).map (fun p => [(name, p.1), ("count", Cell.num p.2)])⟩

/-- `get_data_summary` (src/data_loader.py lines 94-122).  Returns
`some .empty` (Python `{}`) when the unified table is `None`; the outer
`none` models the `KeyError` raised when one of the four grouping columns is
absent from the frame.  Only the `record_types` table gets a `percentage`
column, computed as `(count / len * 100).round(1)`. -/
def get_data_summary (unified : Option DataFrame) : Option SummaryOut :=
  match unified with
  | none => some SummaryOut.empty
  | some u => do
    let rt ← colSeries u "record_type"
    let record_types : DataFrame :=
      ⟨["record_type", "count", "percentage"],
       (value_counts rt).map
         (fun p =>
           [("record_type", p.1), ("count", Cell.num p.2),
            ("percentage", Cell.num (round1 ((p.2 : ℚ) / u.rows.length * 100)))])⟩
    let pl ← colSeries u "pillar"
    let src ← colSeries u "source_type"
    let cf ← colSeries u "confidence"
    some (SummaryOut.tables record_types
      (countFrame "pillar" pl) (countFrame "source_type" src)
      (countFrame "confidence" cf))

/-! ## Derived metrics (dashboard/app.py)

The scalar operands of these computations are numpy float64 values
extracted from pandas frames (`value_numeric` cells, `value_millions`
ratios).  numpy float division by zero does not raise: it emits a
RuntimeWarning and yields ±infinity (or NaN for 0/0).  Scalars are
therefore embedded as `NpVal`: an exact finite rational (float rounding
error is not modelled), positive or negative infinity, or NaN, with
arithmetic following the IEEE-754 rules numpy implements; signed zero is
collapsed onto `num 0`. -/

/-- A numpy float64 scalar: finite (exact rational), ±∞ or NaN. -/
inductive NpVal where
  | num : ℚ → NpVal
  | inf : NpVal
  | negInf : NpVal
  | nan : NpVal
deriving DecidableEq, Repr

/-- IEEE-754 subtraction on float64 scalars. -/
def NpVal.sub : NpVal → NpVal → NpVal
  | nan, _ => nan
  | _, nan => nan
  | num a, num b => num (a - b)
  | num _, inf => negInf
  | num _, negInf => inf
  | inf, num _ => inf
  | inf, inf => nan
  | inf, negInf => inf
  | negInf, num _ => negInf
  | negInf, inf => negInf
  | negInf, negInf => nan

/-- IEEE-754 multiplication on float64 scalars. -/
def NpVal.mul : NpVal → NpVal → NpVal
  | nan, _ => nan
  | _, nan => nan
  | num a, num b => num (a * b)
  | num a, inf => if 0 < a then inf else if a < 0 then negInf else nan
  | num a, negInf => if 0 < a then negInf else if a < 0 then inf else nan
  | inf, num b => if 0 < b then inf else if b < 0 then negInf else nan
  | negInf, num b => if 0 < b then negInf else if b < 0 then inf else nan
  | inf, inf => inf
  | inf, negInf => negInf
  | negInf, inf => negInf
  | negInf, negInf => inf

/-- IEEE-754 division on float64 scalars: a zero divisor yields ±∞ (NaN
for 0/0) with only a RuntimeWarning — numpy never raises here. -/
def NpVal.div : NpVal → NpVal → NpVal
  | nan, _ => nan
  | _, nan => nan
  | num a, num b =>
    if b = 0 then (if 0 < a then inf else if a < 0 then negInf else nan)
    else num (a / b)
  | num _, inf => num 0
  | num _, negInf => num 0
  | inf, num b => if b < 0 then negInf else inf
  | negInf, num b => if b < 0 then inf else negInf
  | inf, inf => nan
  | inf, negInf => nan
  | negInf, inf => nan
  | negInf, negInf => nan

/-- `((b / a) - 1) * 100` (app.py line 273 and lines 518-526): growth
percentage of later value `b` over earlier value `a`, both finite numpy
float64 scalars; when `a = 0` the division silently yields infinity. -/
def growth_pct (a b : ℚ) : NpVal :=
  NpVal.mul (NpVal.sub (NpVal.div (NpVal.num b) (NpVal.num a))
    (NpVal.num 1)) (NpVal.num 100)

/-- One row of the Growth Analysis table (app.py lines 552-557);
`Annual_pp` is a float64 scalar and can be infinite. -/
structure GrowthRow where
  period : String
  growth_pp : ℚ
  annual_pp : NpVal
deriving DecidableEq, Repr

/-- The growth-rate loop of app.py lines 547-557: for each consecutive pair
of the date-sorted series, `Growth_pp = v2 - v1` and
`Annual_pp = growth / (year2 - year1)`; `growth` is a numpy float64, so a
repeated year makes the division yield infinity with only a
RuntimeWarning and the loop keeps emitting rows — nothing raises. -/
def growthRows : List (Int × ℚ) → List GrowthRow
  | (y1, v1) :: (y2, v2) :: rest =>
    ⟨toString y1 ++ "-" ++ toString y2, v2 - v1,
     NpVal.div (NpVal.num (v2 - v1)) (NpVal.num ((y2 : ℚ) - (y1 : ℚ)))⟩ ::
    growthRows ((y2, v2) :: rest)
  | _ => []

/-- The body of the milestone loop (app.py lines 732-738) for one
`(year, proj)` pair: the source repeats, for each threshold of
`[50, 60, 70]` in ascending order, `if proj >= t and t not in
[m[1] for m in milestones]: milestones.append((year, t, label))`
(labels are presentation-only and dropped here). -/
def milestoneStep (ts : List ℚ) (year : Int) (proj : ℚ)
    (ms : List (Int × ℚ)) : List (Int × ℚ) :=
  ts.foldl
    (fun ms t =>
      if t ≤ proj ∧ t ∉ ms.map Prod.snd then ms ++ [(year, t)] else ms)
    ms

/-- The milestone loop over the whole `(year, proj)` series. -/
def milestonesAux (ts : List ℚ) (ms : List (Int × ℚ)) :
    List (Int × ℚ) → List (Int × ℚ)
  | [] => ms
  | (y, p) :: rest => milestonesAux ts (milestoneStep ts y p ms) rest

/-- Milestones of a series for a threshold list, starting empty. -/
def milestones (pairs : List (Int × ℚ)) (ts : List ℚ) : List (Int × ℚ) :=
  milestonesAux ts [] pairs

/-- The loop as instantiated in app.py: thresholds 50, 60, 70. -/
def appMilestones (pairs : List (Int × ℚ)) : List (Int × ℚ) :=
  milestones pairs [50, 60, 70]

/-- First year at which the series meets or exceeds `t`. -/
def firstCross (pairs : List (Int × ℚ)) (t : ℚ) : Option Int :=
  (pairs.find? (fun p => decide (t ≤ p.2))).map Prod.fst

/-- The year recorded for threshold `t` in a milestone list, if any. -/
def findThresh (ms : List (Int × ℚ)) (t : ℚ) : Option Int :=
  (ms.find? (fun m => decide (m.2 = t))).map Prod.fst

/-! ## Record Store (spec §4.1) -/

/-- Modelled from the spec: the repository keeps its records in loaded
pandas frames and has no explicit Record Store class with an `add` method
under src/; per spec §4.1 and §7, a record is a struct keyed by
`record_id`, and `add(record)` inserts it, failing with `DuplicateIdError`
when `record.record_id` is already present, the store unchanged. -/
structure StoreRecord where
  record_id : String
  record_type : String
  indicator_code : String
  observation_date : Option String
  value_numeric : Option ℚ
deriving DecidableEq, Repr

/-- Modelled from the spec: the in-memory Record Store, insertion order
kept. -/
structure RecordStore where
  records : List StoreRecord
deriving DecidableEq, Repr

/-- The structural error of spec §7 raised by a duplicate insert. -/
inductive StoreErr where
  | duplicateIdError : StoreErr
deriving DecidableEq, Repr

/-- Modelled from the spec: `add(record)` inserts, failing with
`DuplicateIdError` if `record.record_id` is already present. -/
def RecordStore.add (s : RecordStore) (r : StoreRecord) :
    Except StoreErr RecordStore :=
  if r.record_id ∈ s.records.map StoreRecord.record_id then
    Except.error StoreErr.duplicateIdError
  else Except.ok ⟨s.records ++ [r]⟩

/-! ## Concrete fixtures used by the theorems below -/

/-- A fully populated unified-data row. -/
def rowOf (id rt : String) : List (String × Cell) :=
  [("record_id", Cell.str id), ("record_type", Cell.str rt),
   ("category", Cell.str "c"), ("pillar", Cell.str "access"),
   ("indicator", Cell.str "i"), ("indicator_code", Cell.str "IC"),
   ("observation_date", Cell.str "2020-01-01"),
   ("source_type", Cell.str "survey"), ("confidence", Cell.str "high")]

/-- Columns of the unified table fixtures. -/
def allCols : List String :=
  ["record_id", "record_type", "category", "pillar", "indicator",
   "indicator_code", "observation_date", "source_type", "confidence"]

/-- A clean two-record table: every required column present, every
record_type valid, record_ids distinct. -/
def dfClean : DataFrame :=
  ⟨allCols, [rowOf "REC_0001" "observation", rowOf "REC_0002" "event"]⟩

/-- Reference codes declaring `observation` and `event` for `record_type`. -/
def dfRef : DataFrame :=
  ⟨["field", "code"],
   [[("field", Cell.str "record_type"), ("code", Cell.str "observation")],
    [("field", Cell.str "record_type"), ("code", Cell.str "event")]]⟩

/-- A table with one invalid record_type value. -/
def dfBad : DataFrame :=
  ⟨allCols, [rowOf "REC_0001" "bogus"]⟩

/-- A table whose two records share the record_id `REC_0001`. -/
def dfDup : DataFrame :=
  ⟨allCols, [rowOf "REC_0001" "observation", rowOf "REC_0001" "observation"]⟩

/-- Ten records: record_type `observation` eight times, `event` twice. -/
def df10 : DataFrame :=
  ⟨allCols,
   List.replicate 8 (rowOf "R" "observation") ++
   List.replicate 2 (rowOf "R" "event")⟩

/-- A non-empty table with no `pillar` column at all. -/
def df5 : DataFrame :=
  ⟨["record_id", "record_type", "source_type", "confidence"],
   [rowOf "REC_0001" "observation"]⟩

/-- One row whose `pillar` cell is NaN (column present, value null). -/
def dfPilNa : DataFrame :=
  ⟨["record_type", "pillar", "source_type", "confidence"],
   [[("record_type", Cell.str "observation"), ("pillar", Cell.na),
     ("source_type", Cell.str "survey"), ("confidence", Cell.str "high")]]⟩

/-- The projection series of spec §8: account ownership 2014-2027. -/
def exSeries : List (Int × ℚ) :=
  [(2014, 22), (2017, 35), (2021, 47), (2025, 271/5), (2026, 284/5),
   (2027, 297/5)]

/-- The pillar-table columns of a summary, for inspecting its shape. -/
def pillarColsOf : SummaryOut → List String
  | SummaryOut.empty => []
  | SummaryOut.tables _ p _ _ => p.cols

/-! ## General lemmas about the embedded operations -/

lemma findThresh_eq_none_iff (ms : List (Int × ℚ)) (t : ℚ) :
    findThresh ms t = none ↔ t ∉ ms.map Prod.snd := by
  unfold findThresh
  rw [Option.map_eq_none', List.find?_eq_none]
  constructor
  · intro h hmem
    obtain ⟨m, hm, hsnd⟩ := List.mem_map.mp hmem
    have h2 := h m hm
    simp [hsnd] at h2
  · intro h m hm
    simp only [decide_eq_true_eq]
    intro heq
    exact h (List.mem_map.mpr ⟨m, hm, heq⟩)

lemma findThresh_append_ne (ms : List (Int × ℚ)) (y : Int) (s t : ℚ)
    (h : s ≠ t) : findThresh (ms ++ [(y, s)]) t = findThresh ms t := by
  unfold findThresh
  have h2 : List.find? (fun m => decide (m.2 = t)) [(y, s)] = none := by
    simp [List.find?_eq_none, h]
  rw [List.find?_append, h2, Option.or_none]

lemma findThresh_append_self (ms : List (Int × ℚ)) (y : Int) (t : ℚ)
    (h : findThresh ms t = none) :
    findThresh (ms ++ [(y, t)]) t = some y := by
  unfold findThresh at h ⊢
  have h1 : ms.find? (fun m => decide (m.2 = t)) = none := by
    cases hf : ms.find? (fun m => decide (m.2 = t)) with
    | none => rfl
    | some m => rw [hf] at h; simp at h
  rw [List.find?_append, h1, Option.none_or]
  simp [List.find?]

lemma findThresh_append_of_some (ms l : List (Int × ℚ)) (y' : Int) (t : ℚ)
    (h : findThresh ms t = some y') :
    findThresh (ms ++ l) t = some y' := by
  unfold findThresh at h ⊢
  cases hf : ms.find? (fun m => decide (m.2 = t)) with
  | none => rw [hf] at h; simp at h
  | some m =>
    rw [hf] at h
    rw [List.find?_append, hf]
    simpa using h

lemma milestoneStep_absent (y : Int) (p t : ℚ) :
    ∀ (ts : List ℚ), t ∉ ts → ∀ ms,
      findThresh (milestoneStep ts y p ms) t = findThresh ms t := by
  intro ts
  induction ts with
  | nil => intro _ ms; rfl
  | cons s ts ih =>
    intro hne ms
    have hst : s ≠ t := fun h => hne (h ▸ List.mem_cons_self s ts)
    have htts : t ∉ ts := fun h => hne (List.mem_cons_of_mem _ h)
    show findThresh
      (milestoneStep ts y p
        (if s ≤ p ∧ s ∉ ms.map Prod.snd then ms ++ [(y, s)] else ms)) t = _
    split
    · rw [ih htts, findThresh_append_ne _ _ _ _ hst]
    · exact ih htts ms

lemma milestoneStep_of_some (y : Int) (p t : ℚ) (y' : Int) :
    ∀ (ts : List ℚ) ms, findThresh ms t = some y' →
      findThresh (milestoneStep ts y p ms) t = some y' := by
  intro ts
  induction ts with
  | nil => intro ms h; exact h
  | cons s ts ih =>
    intro ms h
    show findThresh
      (milestoneStep ts y p
        (if s ≤ p ∧ s ∉ ms.map Prod.snd then ms ++ [(y, s)] else ms)) t = _
    split
    · exact ih _ (findThresh_append_of_some _ _ _ _ h)
    · exact ih _ h

lemma milestoneStep_of_none (y : Int) (p t : ℚ) :
    ∀ (ts : List ℚ), ts.Nodup → t ∈ ts → ∀ ms, findThresh ms t = none →
      findThresh (milestoneStep ts y p ms) t =
        (if t ≤ p then some y else none) := by
  intro ts
  induction ts with
  | nil => intro _ h; exact absurd h (List.not_mem_nil t)
  | cons s ts ih =>
    intro hnd hmem ms hnone
    have hnd2 := List.nodup_cons.mp hnd
    show findThresh
      (milestoneStep ts y p
        (if s ≤ p ∧ s ∉ ms.map Prod.snd then ms ++ [(y, s)] else ms)) t = _
    by_cases hst : s = t
    · subst hst
      have hnm : s ∉ ms.map Prod.snd := (findThresh_eq_none_iff ms s).mp hnone
      by_cases hle : s ≤ p
      · rw [if_pos ⟨hle, hnm⟩, if_pos hle,
          milestoneStep_absent y p s ts hnd2.1 _]
        exact findThresh_append_self ms y s hnone
      · rw [if_neg (fun hc => hle hc.1), if_neg hle,
          milestoneStep_absent y p s ts hnd2.1 _]
        exact hnone
    · have hmem2 : t ∈ ts := by
        cases List.mem_cons.mp hmem with
        | inl h => exact absurd h.symm hst
        | inr h => exact h
      split
      · exact ih hnd2.2 hmem2 _
          ((findThresh_append_ne ms y s t hst).trans hnone)
      · exact ih hnd2.2 hmem2 _ hnone

lemma milestonesAux_findThresh (ts : List ℚ) (hnd : ts.Nodup) (t : ℚ)
    (ht : t ∈ ts) :
    ∀ pairs ms,
      findThresh (milestonesAux ts ms pairs) t =
        match findThresh ms t with
        | some y' => some y'
        | none => firstCross pairs t := by
  intro pairs
  induction pairs with
  | nil =>
    intro ms
    cases h : findThresh ms t <;> simp [milestonesAux, firstCross, h]
  | cons yp rest ih =>
    intro ms
    obtain ⟨y, p⟩ := yp
    show findThresh (milestonesAux ts (milestoneStep ts y p ms) rest) t = _
    rw [ih]
    cases hf : findThresh ms t with
    | some y' => rw [milestoneStep_of_some y p t y' ts ms hf]
    | none =>
      rw [milestoneStep_of_none y p t ts hnd ht ms hf]
      by_cases hle : t ≤ p
      · simp [hle, firstCross, List.find?_cons]
      · simp [hle, firstCross, List.find?_cons]

lemma milestoneStep_nodup (y : Int) (p : ℚ) :
    ∀ (ts : List ℚ) ms, (ms.map Prod.snd).Nodup →
      ((milestoneStep ts y p ms).map Prod.snd).Nodup := by
  intro ts
  induction ts with
  | nil => intro ms h; exact h
  | cons s ts ih =>
    intro ms h
    show ((milestoneStep ts y p
      (if s ≤ p ∧ s ∉ ms.map Prod.snd then ms ++ [(y, s)] else ms)).map
        Prod.snd).Nodup
    split
    · rename_i hc
      refine ih _ ?_
      rw [List.map_append]
      rw [List.nodup_append]
      exact ⟨h, by simp, by simpa using hc.2⟩
    · exact ih _ h

lemma milestonesAux_nodup (ts : List ℚ) :
    ∀ pairs ms, (ms.map Prod.snd).Nodup →
      ((milestonesAux ts ms pairs).map Prod.snd).Nodup := by
  intro pairs
  induction pairs with
  | nil => intro ms h; exact h
  | cons yp rest ih =>
    intro ms h
    obtain ⟨y, p⟩ := yp
    exact ih _ (milestoneStep_nodup y p ts ms h)

lemma insertDescBy_mem (x : Cell × Nat) (l : List (Cell × Nat)) (z : Cell × Nat) :
    z ∈ insertDescBy x l ↔ z = x ∨ z ∈ l := by
  induction l with
  | nil => simp [insertDescBy]
  | cons y ys ih =>
    unfold insertDescBy
    split
    · simp [List.mem_cons]
    · simp only [List.mem_cons, ih]
      tauto

lemma insertDescBy_sorted (x : Cell × Nat) (l : List (Cell × Nat))
    (h : l.Pairwise (fun a b => b.2 ≤ a.2)) :
    (insertDescBy x l).Pairwise (fun a b => b.2 ≤ a.2) := by
  induction l with
  | nil => simp [insertDescBy]
  | cons y ys ih =>
    unfold insertDescBy
    rcases List.pairwise_cons.mp h with ⟨hy, hys⟩
    split
    · rename_i hlt
      refine List.pairwise_cons.mpr ⟨?_, h⟩
      intro z hz
      rcases List.mem_cons.mp hz with rfl | hz2
      · exact le_of_lt hlt
      · exact le_trans (hy z hz2) (le_of_lt hlt)
    · rename_i hge
      refine List.pairwise_cons.mpr ⟨?_, ih hys⟩
      intro z hz
      rcases (insertDescBy_mem x ys z).mp hz with rfl | hz2
      · exact Nat.le_of_not_lt hge
      · exact hy z hz2

lemma value_counts_sorted (l : List Cell) :
    (value_counts l).Pairwise (fun a b => b.2 ≤ a.2) := by
  unfold value_counts
  generalize firstSeenCounts l = m
  induction m with
  | nil => simp
  | cons x xs ih => exact insertDescBy_sorted x _ ih

lemma value_counts_mem (l : List Cell) (z : Cell × Nat) :
    z ∈ value_counts l ↔ z ∈ firstSeenCounts l := by
  unfold value_counts
  generalize firstSeenCounts l = m
  induction m with
  | nil => simp
  | cons x xs ih =>
    simp only [List.foldr_cons, insertDescBy_mem, ih, List.mem_cons]

lemma fscStep_inv (pre : List Cell) (acc : List (Cell × Nat)) (x : Cell)
    (h : FscInv pre acc) : FscInv (pre ++ [x]) (fscStep acc x) := by
  obtain ⟨h1, h2, h3⟩ := h
  unfold fscStep
  by_cases hna : x = Cell.na
  · subst hna
    rw [if_pos rfl]
    refine ⟨?_, ?_, h3⟩
    · intro p hp
      refine ⟨(h1 p hp).1, ?_⟩
      rw [List.count_append, (h1 p hp).2]
      have hz : [Cell.na].count p.1 = 0 := by
        simp [List.count_singleton]
        intro hc
        exact absurd hc.symm (h1 p hp).1
      omega
    · intro v hv hvna
      rcases List.mem_append.mp hv with hv2 | hv2
      · exact h2 v hv2 hvna
      · simp at hv2
        exact absurd hv2 hvna
  · rw [if_neg hna]
    by_cases hmem : x ∈ acc.map Prod.fst
    · rw [if_pos hmem]
      have hmapfst : (acc.map (fun p => if p.1 = x then (p.1, p.2 + 1) else p)).map
          Prod.fst = acc.map Prod.fst := by
        rw [List.map_map]
        apply List.map_congr_left
        intro p _
        by_cases hpx : p.1 = x <;> simp [hpx]
      refine ⟨?_, ?_, ?_⟩
      · intro p hp
        obtain ⟨q, hq, hqp⟩ := List.mem_map.mp hp
        by_cases hqx : q.1 = x
        · rw [if_pos hqx] at hqp
          subst hqp
          refine ⟨(h1 q hq).1, ?_⟩
          rw [List.count_append, (h1 q hq).2, hqx]
          simp [List.count_singleton]
        · rw [if_neg hqx] at hqp
          subst hqp
          refine ⟨(h1 q hq).1, ?_⟩
          rw [List.count_append, (h1 q hq).2]
          have hz : [x].count q.1 = 0 := by
            simp [List.count_singleton]
            intro hc
            exact absurd hc.symm hqx
          omega
      · intro v hv hvna
        rw [hmapfst]
        rcases List.mem_append.mp hv with hv2 | hv2
        · exact h2 v hv2 hvna
        · simp at hv2
          subst hv2
          exact hmem
      · rw [hmapfst]; exact h3
    · rw [if_neg hmem]
      refine ⟨?_, ?_, ?_⟩
      · intro p hp
        rcases List.mem_append.mp hp with hp2 | hp2
        · have hpx : p.1 ≠ x := by
            intro hc
            exact hmem (hc ▸ List.mem_map.mpr ⟨p, hp2, rfl⟩)
          refine ⟨(h1 p hp2).1, ?_⟩
          rw [List.count_append, (h1 p hp2).2]
          have hz : [x].count p.1 = 0 := by
            simp [List.count_singleton]
            intro hc
            exact absurd hc.symm hpx
          omega
        · simp at hp2
          subst hp2
          refine ⟨hna, ?_⟩
          have hxpre : x ∉ pre := by
            intro hc
            exact hmem (h2 x hc hna)
          rw [List.count_append, List.count_eq_zero.mpr hxpre]
          simp [List.count_singleton]
      · intro v hv hvna
        rw [List.map_append]
        rcases List.mem_append.mp hv with hv2 | hv2
        · exact List.mem_append_left _ (h2 v hv2 hvna)
        · simp at hv2
          subst hv2
          simp
      · rw [List.map_append, List.nodup_append]
        exact ⟨h3, by simp, by simpa using hmem⟩

lemma foldl_fsc_inv (l : List Cell) :
    ∀ (pre : List Cell) (acc : List (Cell × Nat)), FscInv pre acc →
      FscInv (pre ++ l) (l.foldl fscStep acc) := by
  induction l with
  | nil => intro pre acc h; simpa using h
  | cons x xs ih =>
    intro pre acc h
    have h2 := ih (pre ++ [x]) (fscStep acc x) (fscStep_inv pre acc x h)
    simpa using h2

lemma firstSeenCounts_inv (l : List Cell) : FscInv l (firstSeenCounts l) := by
  have h := foldl_fsc_inv l [] [] ⟨by simp, by simp, by simp⟩
  simpa [firstSeenCounts] using h

lemma value_counts_count (l : List Cell) (z : Cell × Nat)
    (h : z ∈ value_counts l) : z.1 ≠ Cell.na ∧ z.2 = l.count z.1 :=
  (firstSeenCounts_inv l).1 z ((value_counts_mem l z).mp h)

lemma value_counts_complete (l : List Cell) (v : Cell) (hv : v ∈ l)
    (hna : v ≠ Cell.na) : v ∈ (value_counts l).map Prod.fst := by
  have h := (firstSeenCounts_inv l).2.1 v hv hna
  obtain ⟨p, hp, hpv⟩ := List.mem_map.mp h
  exact List.mem_map.mpr ⟨p, (value_counts_mem l p).mpr hp, hpv⟩

lemma validate_data_no_duplicate_ids (u r : Option DataFrame)
    (rep : List (String × RVal)) (h : validate_data u r = some rep) :
    "duplicate_ids" ∉ rep.map Prod.fst := by
  cases u with
  | none =>
    simp [validate_data] at h
    subst h
    decide
  | some df =>
    cases r with
    | none =>
      simp [validate_data] at h
      subst h
      decide
    | some rdf =>
      simp only [validate_data, Option.bind_eq_bind] at h
      cases h1 : colSeries rdf "field" with
      | none => simp [h1] at h
      | some s1 =>
        cases h2 : colSeries rdf "code" with
        | none => simp [h1, h2] at h
        | some s2 =>
          cases h3 : colSeries df "record_type" with
          | none => simp [h1, h2, h3] at h
          | some s3 =>
            rw [h1, h2, h3] at h
            simp only [Option.some_bind, Option.some.injEq] at h
            subst h
            split_ifs <;> simp

lemma foldl_fscStep_all_na (l : List Cell) (h : ∀ c ∈ l, c = Cell.na) :
    ∀ acc, l.foldl fscStep acc = acc := by
  induction l with
  | nil => intro acc; rfl
  | cons x xs ih =>
    intro acc
    have hx : x = Cell.na := h x (List.mem_cons_self x xs)
    rw [List.foldl_cons]
    have hstep : fscStep acc x = acc := by rw [hx]; rfl
    rw [hstep]
    exact ih (fun c hc => h c (List.mem_cons_of_mem _ hc)) acc

lemma summary_all_na_pillar (df : DataFrame) (rt pl src cf : DataFrame)
    (hna : ∀ row ∈ df.rows, getCell row "pillar" = Cell.na)
    (h : get_data_summary (some df) = some (SummaryOut.tables rt pl src cf)) :
    pl.rows = [] := by
  simp only [get_data_summary, Option.bind_eq_bind] at h
  cases h1 : colSeries df "record_type" with
  | none => simp [h1] at h
  | some s1 =>
    cases h2 : colSeries df "pillar" with
    | none => simp [h1, h2] at h
    | some s2 =>
      cases h3 : colSeries df "source_type" with
      | none => simp [h1, h2, h3] at h
      | some s3 =>
        cases h4 : colSeries df "confidence" with
        | none => simp [h1, h2, h3, h4] at h
        | some s4 =>
          rw [h1, h2, h3, h4] at h
          simp only [Option.some_bind, Option.some.injEq,
            SummaryOut.tables.injEq] at h
          obtain ⟨-, hpl, -, -⟩ := h
          have hs2 : ∀ c ∈ s2, c = Cell.na := by
            unfold colSeries at h2
            split at h2
            · intro c hc
              obtain ⟨row, hrow, hrc⟩ := List.mem_map.mp
                (by injection h2 with h2'; exact h2' ▸ hc)
              exact hrc ▸ hna row hrow
            · exact absurd h2 (by simp)
          have hvc : value_counts s2 = [] := by
            unfold value_counts firstSeenCounts
            rw [foldl_fscStep_all_na s2 hs2 []]
            rfl
          rw [← hpl]
          unfold countFrame
          rw [hvc]
          rfl

lemma get_data_summary_empty_iff (u : Option DataFrame) :
    get_data_summary u = some SummaryOut.empty ↔ u = none := by
  cases u with
  | none => simp [get_data_summary]
  | some df =>
    simp only [iff_false, reduceCtorEq]
    intro h
    simp only [get_data_summary, Option.bind_eq_bind] at h
    cases h1 : colSeries df "record_type" with
    | none => simp [h1] at h
    | some s1 =>
      cases h2 : colSeries df "pillar" with
      | none => simp [h1, h2] at h
      | some s2 =>
        cases h3 : colSeries df "source_type" with
        | none => simp [h1, h2, h3] at h
        | some s3 =>
          cases h4 : colSeries df "confidence" with
          | none => simp [h1, h2, h3, h4] at h
          | some s4 =>
            rw [h1, h2, h3, h4] at h
            simp at h

/-! ## Claim theorems -/

/-- C1: the claim says that when `base_id` is taken and matches
`<letters>_<digits>`, the generator increments the zero-padded suffix from
the parsed value until an unused id is found, so that
`generate("REC_0001", {"REC_0001","REC_0002"})` is `"REC_0003"` and the
result is never a member of `existing_ids`.  The code violates this: the
scan tests the UNPADDED candidate `REC_1` (which is free), so the function
returns the padded `REC_0001` — an identifier that is already taken —
contradicting its own docstring "Generate unique record ID". -/
theorem generate_record_id_returns_taken_id :
    generate_record_id "REC_0001" ["REC_0001", "REC_0002"] = "REC_0001" ∧
    "REC_0001" ∈ ["REC_0001", "REC_0002"] ∧
    generate_record_id "REC_0001" ["REC_0001", "REC_0002"] ≠ "REC_0003" := by
  refine ⟨by decide, by decide, by decide⟩

/-- C2: the claim says the summary verdict is PASS exactly when every issue
category is empty and NEEDS_REVIEW otherwise.  The code reads
`len(validation_results)` before inserting `summary`, so the verdict is
PASS exactly when ONE issue category is non-empty: a fully clean store
(no missing columns, every record_type valid) is graded "NEEDS REVIEW",
and a store with an invalid record_type value is graded "PASS". -/
theorem validate_data_quality_verdict_inverted :
    validate_data (some dfClean) (some dfRef) =
      some [("summary",
        RVal.summary 2 [Cell.str "observation", Cell.str "event"]
          "NEEDS REVIEW")] ∧
    validate_data (some dfBad) (some dfRef) =
      some [("invalid_record_types", RVal.cells [Cell.str "bogus"]),
            ("summary",
             RVal.summary 1 [Cell.str "observation", Cell.str "event"]
               "PASS")] := by
  refine ⟨by decide, by decide⟩

/-- C3 (counterexample): a store whose two records share `record_id`
`REC_0001` is validated into a report whose only key is `summary` — the
duplicated identifiers are not collected into any `duplicate_ids`
category, so the claimed third uniqueness check does not exist. -/
theorem validate_data_duplicate_ids_uncollected_cex :
    ¬ (dfDup.rows.map (fun r => getCell r "record_id")).Nodup ∧
    (validate_data (some dfDup) (some dfRef)).map
      (fun rep => rep.map Prod.fst) = some ["summary"] := by
  refine ⟨by decide, by decide⟩

/-- C3 (amended): the validator performs only the schema-completeness and
vocabulary checks; no report it produces ever contains a `duplicate_ids`
category, duplicates or not. -/
theorem validate_data_report_never_has_duplicate_ids :
    ∀ (u r : Option DataFrame) (rep : List (String × RVal)),
      validate_data u r = some rep → "duplicate_ids" ∉ rep.map Prod.fst := by
  intro u r rep h
  exact validate_data_no_duplicate_ids u r rep h

/-- Witness for C3's amended theorem at the concrete unloaded state. -/
theorem validate_data_report_never_has_duplicate_ids_witness :
    "duplicate_ids" ∉
      ([("error", RVal.msg "Data not loaded")].map Prod.fst) :=
  validate_data_report_never_has_duplicate_ids none none _ rfl

/-- C4: the claim says the growth percentage `((b / a) - 1) * 100` fails
with `DivisionByZeroError` when `a = 0`, the error surfaced rather than
silently producing infinity.  The operands at app.py lines 270-273 and
518-526 are numpy float64 scalars, whose division by zero yields infinity
with only a RuntimeWarning: at `a = 0`, `b = 157.1e6` the code silently
returns +∞ and nothing fails.  The formula itself and the worked example
are as claimed: for `a = 150.0e6`, `b = 157.1e6` the result is exactly
`71/15`, strictly between 4.733 and 4.734. -/
theorem growth_pct_zero_silent_infinity :
    growth_pct 0 157100000 = NpVal.inf ∧
    growth_pct 150000000 157100000 = NpVal.num (71 / 15) ∧
    ((4733 / 1000 : ℚ) < 71 / 15 ∧ (71 / 15 : ℚ) < 4734 / 1000) := by
  refine ⟨by with_unfolding_all decide, by with_unfolding_all decide,
    by norm_num, by norm_num⟩

/-- C5 (counterexample): on a non-empty table with no `pillar` column at
all, the summarizer raises `KeyError` (modelled `none`) instead of
returning an empty frequency table. -/
theorem get_data_summary_missing_column_keyerror_cex :
    "pillar" ∉ df5.cols ∧ df5.rows ≠ [] ∧
    get_data_summary (some df5) = none := by
  refine ⟨by decide, by decide, by decide⟩

/-- C5 (amended): when the `pillar` column is present but null in every
record, the summarizer succeeds and its pillar frequency table is empty;
when the column is entirely absent it raises `KeyError` instead
(counterexample above). -/
theorem get_data_summary_all_null_field_empty_table :
    ∀ (df rt pl src cf : DataFrame),
      (∀ row ∈ df.rows, getCell row "pillar" = Cell.na) →
      get_data_summary (some df) =
        some (SummaryOut.tables rt pl src cf) →
      pl.rows = [] := by
  intro df rt pl src cf hna h
  exact summary_all_na_pillar df rt pl src cf hna h

/-- Witness for C5's amended theorem on a one-row table whose pillar cell
is NaN. -/
theorem get_data_summary_all_null_field_empty_table_witness :
    (DataFrame.mk ["pillar", "count"] []).rows = [] :=
  get_data_summary_all_null_field_empty_table dfPilNa
    ⟨["record_type", "count", "percentage"],
     [[("record_type", Cell.str "observation"), ("count", Cell.num 1),
       ("percentage", Cell.num 100)]]⟩
    ⟨["pillar", "count"], []⟩
    ⟨["source_type", "count"],
     [[("source_type", Cell.str "survey"), ("count", Cell.num 1)]]⟩
    ⟨["confidence", "count"],
     [[("confidence", Cell.str "high"), ("count", Cell.num 1)]]⟩
    (by decide) (by with_unfolding_all decide)

/-- C6 (counterexample): the summarizer's pillar table has exactly the
columns `pillar` and `count` — no `percentage` column — so only the
record_type table maps values to a (count, percentage) pair; the other
three grouping fields get counts only. -/
theorem get_data_summary_count_only_tables_cex :
    (get_data_summary (some df10)).map pillarColsOf =
      some ["pillar", "count"] ∧
    "percentage" ∉ ["pillar", "count"] := by
  refine ⟨by with_unfolding_all decide, by decide⟩

/-- C6 (amended): every frequency table is sorted by descending count;
each entry pairs a non-NaN observed value with its exact number of
occurrences, and every observed non-NaN value appears; the record_type
table additionally carries a rounded percentage-of-total, so for
record_type values `["observation"]*8 ++ ["event"]*2` it reports
observation ↦ (8, 80.0) and event ↦ (2, 20.0); the pillar, source_type
and confidence tables carry counts only. -/
theorem get_data_summary_sorted_counts_and_example :
    (∀ l : List Cell, (value_counts l).Pairwise (fun a b => b.2 ≤ a.2)) ∧
    (∀ (l : List Cell) (z : Cell × Nat), z ∈ value_counts l →
      z.1 ≠ Cell.na ∧ z.2 = l.count z.1) ∧
    (∀ (l : List Cell) (v : Cell), v ∈ l → v ≠ Cell.na →
      v ∈ (value_counts l).map Prod.fst) ∧
    get_data_summary (some df10) = some (SummaryOut.tables
      ⟨["record_type", "count", "percentage"],
       [[("record_type", Cell.str "observation"), ("count", Cell.num 8),
         ("percentage", Cell.num 80)],
        [("record_type", Cell.str "event"), ("count", Cell.num 2),
         ("percentage", Cell.num 20)]]⟩
      ⟨["pillar", "count"],
       [[("pillar", Cell.str "access"), ("count", Cell.num 10)]]⟩
      ⟨["source_type", "count"],
       [[("source_type", Cell.str "survey"), ("count", Cell.num 10)]]⟩
      ⟨["confidence", "count"],
       [[("confidence", Cell.str "high"), ("count", Cell.num 10)]]⟩) := by
  refine ⟨value_counts_sorted, value_counts_count, value_counts_complete,
    by with_unfolding_all decide⟩

/-- Witness for C6's amended theorem: the counted pair for a concrete
two-cell series. -/
theorem get_data_summary_sorted_counts_and_example_witness :
    (Cell.str "a", 2).1 ≠ Cell.na ∧
    (Cell.str "a", 2).2 = [Cell.str "a", Cell.str "a"].count (Cell.str "a", 2).1 :=
  get_data_summary_sorted_counts_and_example.2.1
    [Cell.str "a", Cell.str "a"] (Cell.str "a", 2) (by decide)

set_option maxRecDepth 8000 in
/-- C7: milestone detection records, for each threshold of the ascending
list, the first year at which the series value meets or exceeds it; each
threshold is recorded at most once (and never re-evaluated after its first
crossing), unreached thresholds are omitted; on the spec's series the
50-point milestone is first reached in 2025 while 60 and 70 are never
reached. -/
theorem milestones_first_crossing_spec :
    (∀ (pairs : List (Int × ℚ)) (ts : List ℚ), ts.Pairwise (· < ·) →
      (∀ t ∈ ts, findThresh (milestones pairs ts) t = firstCross pairs t) ∧
      ((milestones pairs ts).map Prod.snd).Nodup) ∧
    appMilestones exSeries = [(2025, 50)] ∧
    findThresh (appMilestones exSeries) 50 = some 2025 ∧
    findThresh (appMilestones exSeries) 60 = none ∧
    findThresh (appMilestones exSeries) 70 = none := by
  refine ⟨?_, by with_unfolding_all decide, by with_unfolding_all decide,
    by with_unfolding_all decide, by with_unfolding_all decide⟩
  intro pairs ts hasc
  have hnd : ts.Nodup := hasc.imp ne_of_lt
  constructor
  · intro t ht
    have h := milestonesAux_findThresh ts hnd t ht pairs []
    simpa [milestones, findThresh] using h
  · exact milestonesAux_nodup ts pairs [] (by simp)

/-- Witness for C7 on the spec's series and thresholds. -/
theorem milestones_first_crossing_spec_witness :
    findThresh (milestones exSeries [50, 60, 70]) 50 =
      firstCross exSeries 50 :=
  (milestones_first_crossing_spec.1 exSeries [50, 60, 70]
    (by with_unfolding_all decide)).1 50 (by norm_num)

/-- C8: the claim says the period-growth computation fails with
`InvalidPeriodError` when `year1 == year2` instead of dividing by zero.
`growth` at app.py line 556 is a numpy float64, so
`growth / (year2 - year1)` with a repeated year yields infinity with only
a RuntimeWarning and the loop keeps emitting rows — the code has no guard
and never fails: on a series with a zero-length 2014-2014 period it
produces an infinite `Annual_pp` row followed by the normal rows.  For
the well-formed pair `(2014, 22)`, `(2017, 35)` the absolute change 13
and annualized change 13/3 are as claimed. -/
theorem growthRows_zero_period_silent_infinity :
    growthRows [(2014, 22), (2014, 35), (2017, 40)] =
      [⟨"2014-2014", 13, NpVal.inf⟩,
       ⟨"2014-2017", 5, NpVal.num (5 / 3)⟩] ∧
    growthRows [(2014, 22), (2017, 35)] =
      [⟨"2014-2017", 13, NpVal.num (13 / 3)⟩] := by
  refine ⟨by with_unfolding_all decide, by with_unfolding_all decide⟩

/-- C9: inserting a record whose `record_id` is already present in the
Record Store fails with `DuplicateIdError`; no successor store is
produced, so the store (and its record count) is unchanged on error. -/
theorem record_store_add_duplicate_error :
    ∀ (s : RecordStore) (r : StoreRecord),
      r.record_id ∈ s.records.map StoreRecord.record_id →
      s.add r = Except.error StoreErr.duplicateIdError := by
  intro s r h
  unfold RecordStore.add
  rw [if_pos h]

/-- Witness for C9: a duplicate insert on a one-record store. -/
theorem record_store_add_duplicate_error_witness :
    (RecordStore.mk [⟨"REC_0001", "observation", "IC", none, none⟩]).add
      ⟨"REC_0001", "event", "IC", none, none⟩ =
      Except.error StoreErr.duplicateIdError :=
  record_store_add_duplicate_error _ _ (by decide)

/-- C10 (counterexample): with the unified table loaded but the
reference-codes table not loaded, the validator does return the
`{"error": "Data not loaded"}` dictionary, but the summarizer — which
never reads the reference codes — returns a full, non-empty summary, not
the empty dictionary the claim asserts for that precondition. -/
theorem summarizer_ignores_reference_codes_cex :
    validate_data (some dfClean) none =
      some [("error", RVal.msg "Data not loaded")] ∧
    get_data_summary (some dfClean) ≠ some SummaryOut.empty ∧
    get_data_summary (some dfClean) ≠ none := by
  refine ⟨by decide, by with_unfolding_all decide,
    by with_unfolding_all decide⟩

/-- C10 (amended): the validator answers `{"error": "Data not loaded"}`
whenever either table is unloaded, while the summarizer returns the empty
dictionary exactly when the unified table itself is unloaded — it does not
consult the reference-codes table. -/
theorem unloaded_tables_handling :
    (∀ (u r : Option DataFrame), (u = none ∨ r = none) →
      validate_data u r = some [("error", RVal.msg "Data not loaded")]) ∧
    (∀ u : Option DataFrame,
      get_data_summary u = some SummaryOut.empty ↔ u = none) := by
  constructor
  · rintro u r (rfl | rfl)
    · cases r <;> rfl
    · cases u <;> rfl
  · exact get_data_summary_empty_iff

/-- Witness for C10's amended theorem at a concrete unloaded state. -/
theorem unloaded_tables_handling_witness :
    validate_data none (some dfRef) =
      some [("error", RVal.msg "Data not loaded")] :=
  unloaded_tables_handling.1 none (some dfRef) (Or.inl rfl)
